import Mathlib

/-!
# Verification of the PDF report renderer / metrics-derivation pipeline

Shallow embedding of `generateReport` (src/unnamed/part_000, the pdfkit report
generator of the `pdfreport-vercel-mobile` repository) and proofs of the
claims about it.

Modelling decisions, stated once here:

* JavaScript numbers are modelled by `JSNum`: either a rational (`num q`) or
  the non-number values `undef` (JS `undefined`, obtained by indexing past the
  end of an array) and `nan` (JS `NaN`).  Arithmetic on `undef` coerces it to
  `NaN` exactly as JS does, and every arithmetic operation propagates `nan`.
  All numeric literals in the program and all metrics values are small
  integers or ratios of them, represented exactly by IEEE doubles, so ℚ is a
  faithful carrier for the in-range arithmetic.  Division by zero would give
  ±Infinity (or NaN for 0/0) in JS; every division in the embedded program is
  guarded so that its divisor is a nonzero number, so the `nan` default that
  `JSNum.div` returns on a zero divisor is never the value of a reachable
  expression.
* `followerHistory` entries carry a `date : String` (the ISO string the
  source never interprets beyond formatting) and a `count : ℕ` (the contract
  of the data model: counts are non-negative integers).
* `topPosts` entries carry `Option`-valued fields: `none` models a missing /
  `undefined` JS field.  The source reads `p.likes || 0`, which yields the
  numeric value when present and `0` when missing (or zero), i.e.
  `Option.getD 0` on an `Option ℕ`; reading `title.length` of a missing title
  throws a `TypeError`, modelled by `Except.error`.
* The pdfkit document is modelled as a list of pages, each a list of draw
  items.  Text metrics (line heights, `doc.y` after a text block) are the
  PDF library's floating-point font machinery and are not embedded; chart
  coordinates are therefore expressed relative to the chart box origin, with
  the chart-geometry functions taking the box as an argument, exactly the
  caller-supplied-bounding-box contract of the spec.  `toLocaleDateString`
  and the decimal formatting `toFixed` / `toLocaleString` are locale- and
  presentation-level; text items store the raw payloads they format.
* Loading the logo from disk (`fs.readFileSync`) is an excluded asset-loading
  concern; its success is a boolean parameter `logoLoaded` of the facade.
-/

/-- A JavaScript numeric value as used by the report generator: a finite
number (here: a rational), `NaN`, or `undefined` (result of out-of-range
array indexing, coerced to `NaN` by arithmetic). -/
inductive JSNum where
  | undef : JSNum
  | nan : JSNum
  | num : ℚ → JSNum
deriving DecidableEq, Repr

namespace JSNum

/-- Numeric coercion (`ToNumber`): `undefined` and `NaN` have no finite
value. -/
def toQ : JSNum → Option ℚ
  | num q => some q
  | _ => none

/-- JS `+` on numbers: `NaN`/`undefined` operands give `NaN`. -/
def add (a b : JSNum) : JSNum :=
  match a.toQ, b.toQ with
  | some x, some y => num (x + y)
  | _, _ => nan

/-- JS `-` on numbers. -/
def sub (a b : JSNum) : JSNum :=
  match a.toQ, b.toQ with
  | some x, some y => num (x - y)
  | _, _ => nan

/-- JS `*` on numbers. -/
def mul (a b : JSNum) : JSNum :=
  match a.toQ, b.toQ with
  | some x, some y => num (x * y)
  | _, _ => nan

/-- JS `/` on numbers.  A zero divisor gives ±Infinity (or NaN) in JS; every
division in the embedded program is guarded so the divisor is a nonzero
number, so the `nan` default on that branch is unreachable. -/
def div (a b : JSNum) : JSNum :=
  match a.toQ, b.toQ with
  | some x, some y => if y = 0 then nan else num (x / y)
  | _, _ => nan

instance : Add JSNum := ⟨add⟩
instance : Sub JSNum := ⟨sub⟩
instance : Mul JSNum := ⟨mul⟩
instance : Div JSNum := ⟨div⟩

@[simp] theorem add_def (a b : JSNum) : a + b = JSNum.add a b := rfl
@[simp] theorem sub_def (a b : JSNum) : a - b = JSNum.sub a b := rfl
@[simp] theorem mul_def (a b : JSNum) : a * b = JSNum.mul a b := rfl
@[simp] theorem div_def (a b : JSNum) : a / b = JSNum.div a b := rfl

/-- JS `<`: false whenever either side is `NaN`/`undefined`. -/
def lt (a b : JSNum) : Bool :=
  match a.toQ, b.toQ with
  | some x, some y => decide (x < y)
  | _, _ => false

/-- JS `<=`: false whenever either side is `NaN`/`undefined`. -/
def le (a b : JSNum) : Bool :=
  match a.toQ, b.toQ with
  | some x, some y => decide (x ≤ y)
  | _, _ => false

/-- JS `>`. -/
def gt (a b : JSNum) : Bool := lt b a

/-- JS truthiness of a numeric value: `0`, `NaN` and `undefined` are falsy. -/
def truthy : JSNum → Bool
  | num q => decide (q ≠ 0)
  | _ => false

/-- JS `Math.round`: round half toward +∞; `NaN` in, `NaN` out. -/
def round : JSNum → JSNum
  | num q => num ((⌊q + 1/2⌋ : ℤ) : ℚ)
  | _ => nan

end JSNum

/-- One follower-history observation: `{ date: ISOString, count: Number }`.
Counts are the non-negative integers of the data-model contract. -/
structure FollowerSample where
  date : String
  count : ℕ
deriving DecidableEq, Repr

/-- One top-post sample: `{ title: String, likes: Number, comments: Number }`.
`none` models a field that is absent (`undefined`) in the incoming JSON. -/
structure PostSample where
  title : Option String
  likes : Option ℕ
  comments : Option ℕ
deriving DecidableEq, Repr

/-- The sole input contract of the core: follower time series plus post
engagement samples. -/
structure MetricsBundle where
  followerHistory : List FollowerSample
  topPosts : List PostSample
deriving DecidableEq, Repr

/-- `options` of `generateReport`: optional ISO date strings. -/
structure ReportOptions where
  since : Option String := none
  «until» : Option String := none
deriving DecidableEq, Repr

/-- All summary statistics derived in `generateReport` lines 20–50. -/
structure DerivedStats where
  startCount : JSNum
  endCount : JSNum
  growth : JSNum
  totalNewFollowers : JSNum
  dailyGrowth : JSNum
  totalLikes : JSNum
  totalComments : JSNum
  avgLikes : JSNum
  avgComments : JSNum
  engagementRate : JSNum
  commentLikeRatio : JSNum
  numDays : ℕ
  growthSlope : JSNum
  forecast30 : JSNum
  forecast90 : JSNum
deriving DecidableEq, Repr

/-- `counts[i]` for a JS array of numbers: `undefined` out of range. -/
def jsIndex (counts : List ℕ) (i : ℕ) : JSNum :=
  match counts.get? i with
  | some c => JSNum.num c
  | none => JSNum.undef

/-- `topPosts.reduce((sum, p) => sum + (p.likes || 0), 0)` (line 29):
a missing `likes` field reads as `0`. -/
def totalLikesQ (topPosts : List PostSample) : ℚ :=
  (topPosts.map (fun p => ((p.likes.getD 0 : ℕ) : ℚ))).sum

/-- `topPosts.reduce((sum, p) => sum + (p.comments || 0), 0)` (line 30). -/
def totalCommentsQ (topPosts : List PostSample) : ℚ :=
  (topPosts.map (fun p => ((p.comments.getD 0 : ℕ) : ℚ))).sum

/-- The metrics-normalizer portion of `generateReport`
(src/unnamed/part_000 lines 18–50), translated statement by statement. -/
def deriveStats (metrics : MetricsBundle) : DerivedStats :=
  let followerHistory := metrics.followerHistory
  let topPosts := metrics.topPosts
  -- const counts = followerHistory.map(item => item.count);
  let counts : List ℕ := followerHistory.map (fun item => item.count)
  -- const startCount = counts[0];
  let startCount := jsIndex counts 0
  -- const endCount = counts[counts.length - 1];
  let endCount := jsIndex counts (counts.length - 1)
  -- const growth = startCount ? ((endCount - startCount) / startCount) * 100 : 0;
  let growth := if startCount.truthy
    then ((endCount - startCount) / startCount) * JSNum.num 100
    else JSNum.num 0
  -- const totalNewFollowers = endCount - startCount;
  let totalNewFollowers := endCount - startCount
  -- const dailyGrowth = counts.length > 1 ? totalNewFollowers / (counts.length - 1) : 0;
  let dailyGrowth := if counts.length > 1
    then totalNewFollowers / JSNum.num (counts.length - 1)
    else JSNum.num 0
  -- const totalLikes = topPosts.reduce((sum, p) => sum + (p.likes || 0), 0);
  let totalLikesV : ℚ := totalLikesQ topPosts
  -- const totalComments = topPosts.reduce((sum, p) => sum + (p.comments || 0), 0);
  let totalCommentsV : ℚ := totalCommentsQ topPosts
  -- const avgLikes = topPosts.length ? totalLikes / topPosts.length : 0;
  let avgLikes := if topPosts.length ≠ 0
    then JSNum.num (totalLikesV / topPosts.length) else JSNum.num 0
  let avgComments := if topPosts.length ≠ 0
    then JSNum.num (totalCommentsV / topPosts.length) else JSNum.num 0
  -- const engagementRate = endCount > 0 && topPosts.length > 0 ? ... : 0;
  let engagementRate := if JSNum.gt endCount (JSNum.num 0) ∧ topPosts.length > 0
    then ((JSNum.num totalLikesV + JSNum.num totalCommentsV)
          / (JSNum.num topPosts.length * endCount)) * JSNum.num 100
    else JSNum.num 0
  -- const commentLikeRatio = totalLikes > 0 ? (totalComments / totalLikes) * 100 : 0;
  let commentLikeRatio := if totalLikesV > 0
    then JSNum.num ((totalCommentsV / totalLikesV) * 100) else JSNum.num 0
  -- const numDays = counts.length > 1 ? counts.length - 1 : 1;
  let numDays : ℕ := if counts.length > 1 then counts.length - 1 else 1
  -- const growthSlope = numDays > 0 ? (endCount - startCount) / numDays : 0;
  let growthSlope := if numDays > 0
    then (endCount - startCount) / JSNum.num numDays else JSNum.num 0
  -- const forecast30 = Math.round(endCount + growthSlope * 30);
  let forecast30 := JSNum.round (endCount + growthSlope * JSNum.num 30)
  let forecast90 := JSNum.round (endCount + growthSlope * JSNum.num 90)
  { startCount := startCount
    endCount := endCount
    growth := growth
    totalNewFollowers := totalNewFollowers
    dailyGrowth := dailyGrowth
    totalLikes := JSNum.num totalLikesV
    totalComments := JSNum.num totalCommentsV
    avgLikes := avgLikes
    avgComments := avgComments
    engagementRate := engagementRate
    commentLikeRatio := commentLikeRatio
    numDays := numDays
    growthSlope := growthSlope
    forecast30 := forecast30
    forecast90 := forecast90 }

/-! ## Chart geometry engine -/

/-- `Math.min(...l)` for a nonempty array `l`; the empty spread gives
`+Infinity` in JS, unreachable here because every use is behind a
nonemptiness guard (modelled as `0`). -/
def jsMin (l : List ℕ) : ℕ :=
  match l with
  | [] => 0
  | c :: cs => cs.foldl min c

/-- `Math.max(...l)` for a nonempty array `l`; the empty spread gives
`-Infinity` in JS, unreachable here (modelled as `0`; note that the bar
chart applies `|| 1` afterwards, so `0` is also the faithful value there). -/
def jsMax (l : List ℕ) : ℕ :=
  match l with
  | [] => 0
  | c :: cs => cs.foldl max c

/-- The follower-growth line-chart points (src/unnamed/part_000 lines
217–220 and 244–253), relative to a caller-supplied box: `boxX` stands for
the source's `chartX + marginX` and `boxY` for `chartY` (the absolute values
of which depend on the PDF library's font metrics, outside this embedding).
`width`/`height` are the source's `chartWidth`/`chartHeight`. -/
def lineChartPoints (boxX boxY width height : ℚ) (counts : List ℕ) : List (ℚ × ℚ) :=
  -- const minCount = Math.min(...counts); const maxCount = Math.max(...counts);
  let minCount := jsMin counts
  let maxCount := jsMax counts
  -- const yRange = maxCount - minCount || 1;
  let yRange : ℚ := if (maxCount : ℚ) - (minCount : ℚ) = 0 then 1
    else (maxCount : ℚ) - (minCount : ℚ)
  -- const xStep = chartWidth / (followerHistory.length - 1);
  let xStep : ℚ := width / ((counts.length - 1 : ℕ) : ℚ)
  -- followerHistory.forEach((item, idx) => { ... moveTo/lineTo(x, y) ... });
  counts.enum.map (fun p =>
    (boxX + xStep * (p.1 : ℚ),
     boxY + height - (((p.2 : ℚ) - (minCount : ℚ)) / yRange) * height))

/-- The axis labels and polyline of the follower-growth chart block
(lines 206–258), coordinates relative to the chart box. -/
structure LineChartBlock where
  maxLabel : ℕ
  minLabel : ℕ
  firstDateLabel : String
  lastDateLabel : String
  points : List (ℚ × ℚ)
deriving DecidableEq, Repr

/-- `new Date(iso).toLocaleDateString()`: locale-dependent date formatting,
abstracted as the identity on the stored date string (the source never
interprets the date value beyond formatting it). -/
def localeDate (iso : String) : String := iso

/-- Builds the line-chart block from the follower history (lines 217–253);
only invoked behind the `followerHistory.length > 1` guard. -/
def buildLineChart (followerHistory : List FollowerSample) : LineChartBlock :=
  let counts := followerHistory.map (fun item => item.count)
  { maxLabel := jsMax counts
    minLabel := jsMin counts
    firstDateLabel := localeDate (((followerHistory.head?).map (fun s => s.date)).getD "")
    lastDateLabel := localeDate (((followerHistory.getLast?).map (fun s => s.date)).getD "")
    points := lineChartPoints 0 0 450 220 counts }

/-- One grouped pair of bars of the top-posts bar chart: `baseX` relative to
the chart box, the two scaled bar heights, and the positional index label. -/
structure BarPair where
  baseX : ℚ
  likesHeight : ℚ
  commentsHeight : ℚ
  label : String
deriving DecidableEq, Repr

/-- The grouped bar chart of the top posts (lines 273–332), coordinates
relative to the chart box. -/
structure BarChartBlock where
  bars : List BarPair
  legendLabels : List String
deriving DecidableEq, Repr

/-- Builds the bar-chart block (lines 277–329): bar heights are scaled by
`Math.max(...likes, ...comments) || 1` against `chartHeight = 180`, with
`barWidth = 30` and `barGap = 20`; missing likes/comments read as
`p.likes || 0`. -/
def buildBarChart (topPosts : List PostSample) : BarChartBlock :=
  let barWidth : ℚ := 30
  let barGap : ℚ := 20
  let chartHeight : ℚ := 180
  -- const maxMetric = Math.max(...topPosts.map(p => p.likes || 0),
  --                            ...topPosts.map(p => p.comments || 0)) || 1;
  let maxNat := jsMax (topPosts.map (fun p => p.likes.getD 0)
    ++ topPosts.map (fun p => p.comments.getD 0))
  let maxMetric : ℚ := if maxNat = 0 then 1 else (maxNat : ℚ)
  { bars := topPosts.enum.map (fun p =>
      { baseX := (p.1 : ℚ) * (2 * barWidth + barGap)
        likesHeight := ((p.2.likes.getD 0 : ℕ) : ℚ) / maxMetric * chartHeight
        commentsHeight := ((p.2.comments.getD 0 : ℕ) : ℚ) / maxMetric * chartHeight
        label := toString (p.1 + 1) })
    legendLabels := ["Likes", "Comments"] }

/-! ## Document paginator -/

/-- A fragment of a drawn text line: a literal, or a template interpolation
of a JS number (`${x}`, `${x.toFixed(d)}`, `${x.toLocaleString()}`); the
decimal rendering itself is presentation-level and kept symbolic. -/
inductive TextPart where
  | str : String → TextPart
  | val : JSNum → TextPart
  | numFixed : JSNum → ℕ → TextPart
  | numLocale : JSNum → TextPart
deriving DecidableEq, Repr

/-- One drawing item of a page: the logo image, a text line, a section
heading, one of the two chart blocks, or a top-posts table row. -/
inductive Item where
  | image : Item
  | text : List TextPart → Item
  | heading : String → Item
  | lineChart : LineChartBlock → Item
  | barChart : BarChartBlock → Item
  | tableRow : String → String → String → Item
deriving DecidableEq, Repr

/-- The header block (lines 129–172): logo (when the excluded asset load
succeeded), date-range label, title and subtitle. -/
def headerItems (logoLoaded : Bool) (options : ReportOptions) : List Item :=
  -- const sinceDate = options.since ? new Date(options.since).toLocaleDateString() : 'Last 30 days';
  let sinceDate := match options.since with
    | some s => localeDate s
    | none => "Last 30 days"
  let untilDate := match options.until with
    | some u => localeDate u
    | none => ""
  -- const dateRangeText = untilDate ? `${sinceDate} – ${untilDate}` : sinceDate;
  let dateRangeText := if untilDate ≠ "" then sinceDate ++ " – " ++ untilDate else sinceDate
  (if logoLoaded then [Item.image] else [])
  ++ [Item.text [TextPart.str dateRangeText],
      Item.heading "Social Media Report",
      Item.text [TextPart.str "Performance & Growth Insights"]]

/-- Page 1 (lines 185–258): summary lines and, when the history has at
least two samples, the follower-growth chart block. -/
def page1Items (logoLoaded : Bool) (metrics : MetricsBundle) (options : ReportOptions)
    (s : DerivedStats) : List Item :=
  headerItems logoLoaded options
  ++ [Item.heading "Summary",
      Item.text [TextPart.str "Follower count changed from ", TextPart.val s.startCount,
        TextPart.str " to ", TextPart.val s.endCount, TextPart.str ", a ",
        TextPart.numFixed s.growth 1, TextPart.str "% change."],
      Item.text [TextPart.str "Total new followers: ", TextPart.val s.totalNewFollowers,
        TextPart.str " (~", TextPart.numFixed s.dailyGrowth 1, TextPart.str " per day)"],
      Item.text [TextPart.str "Average likes: ", TextPart.numFixed s.avgLikes 0,
        TextPart.str ", Average comments: ", TextPart.numFixed s.avgComments 1,
        TextPart.str " per post"]]
  ++ (if metrics.followerHistory.length > 1 then
        [Item.heading "Follower Growth",
         Item.lineChart (buildLineChart metrics.followerHistory)]
      else [])

/-- Page 2 (lines 260–333): follower-history table and, when there is at
least one post, the top-posts bar chart block. -/
def page2Items (metrics : MetricsBundle) : List Item :=
  [Item.heading "Follower History"]
  ++ metrics.followerHistory.map (fun item =>
      Item.text [TextPart.str (localeDate item.date), TextPart.str "  ",
        TextPart.str (toString item.count)])
  ++ (if metrics.topPosts.length > 0 then
        [Item.heading "Top Posts Engagement (Likes vs Comments)",
         Item.barChart (buildBarChart metrics.topPosts)]
      else [])

/-- The recommendation messages of lines 356–390, verbatim. -/
def flatGrowthMsg : String :=
  "Growth is flat or declining. Increase posting frequency and experiment with varied content types (videos, stories) to reignite growth."

def modestGrowthMsg : String :=
  "Growth is positive but modest. Leverage trending topics and hashtags to expand reach and attract new followers."

def strongGrowthMsg : String :=
  "Growth is strong. Maintain your current posting cadence and continue engaging with your audience to sustain momentum."

def lowEngagementMsg : String :=
  "Low engagement rate. Encourage interaction by asking questions in captions and responding promptly to comments."

def highEngagementMsg : String :=
  "High engagement rate. Capitalize on this by collaborating with influencers or hosting contests to further boost engagement."

def lowRatioMsg : String :=
  "Comments are relatively low compared to likes. Inspire discussion by inviting followers to share their thoughts or experiences."

def goodRatioMsg : String :=
  "Good balance between comments and likes. Keep fostering conversations to strengthen your community."

def closingMsg : String :=
  "Regularly review your top performing content to identify themes that resonate with your audience, and iterate on these successes."

/-- The rule-based recommendations list (lines 356–390), a function of the
four derived stats it reads. -/
def recommendations (growthSlope dailyGrowth engagementRate commentLikeRatio : JSNum) :
    List String :=
  (if JSNum.le growthSlope (JSNum.num 0) then [flatGrowthMsg]
   else if JSNum.lt dailyGrowth (JSNum.num 5) then [modestGrowthMsg]
   else [strongGrowthMsg])
  ++ (if JSNum.lt engagementRate (JSNum.num 1) then [lowEngagementMsg]
      else if JSNum.gt engagementRate (JSNum.num 5) then [highEngagementMsg]
      else [])
  ++ (if JSNum.lt commentLikeRatio (JSNum.num 10) then [lowRatioMsg] else [goodRatioMsg])
  ++ [closingMsg]

/-- Page 3 (lines 335–393): key takeaways and recommendations. -/
def page3Items (s : DerivedStats) : List Item :=
  [Item.heading "Key Takeaways & Growth Forecast",
   Item.text [TextPart.str "• Average daily follower growth: ",
     TextPart.numFixed s.dailyGrowth 1, TextPart.str " per day."],
   Item.text [TextPart.str "• Engagement rate: ", TextPart.numFixed s.engagementRate 2,
     TextPart.str "% (likes + comments relative to reach)."],
   Item.text [TextPart.str "• Comment-to-like ratio: ",
     TextPart.numFixed ( DerivedStats.commentLikeRatio s) 2, TextPart.str "%."],
   Item.text [TextPart.str "• Projected followers in 30 days: ",
     TextPart.numLocale s.forecast30, TextPart.str "."],
   Item.text [TextPart.str "• Projected followers in 90 days: ",
     TextPart.numLocale s.forecast90, TextPart.str "."],
   Item.heading "Recommendations"]
  ++ (recommendations s.growthSlope s.dailyGrowth s.engagementRate
        ( DerivedStats.commentLikeRatio s)).map
      (fun r => Item.text [TextPart.str ("• " ++ r)])

/-- JS `String(x)` for an optionally-present numeric field:
`String(undefined)` is the string `"undefined"`. -/
def jsString (x : Option ℕ) : String :=
  match x with
  | some n => toString n
  | none => "undefined"

/-- `title.length > 50 ? title.slice(0, 47) + ellipsis : title` (line 411).
JS `slice` counts UTF-16 units; all titles considered here are plain text,
for which taking the first 47 characters is the same operation. -/
def truncateTitle (title : String) : String :=
  if title.length > 50 then String.mk (title.data.take 47) ++ "…" else title

/-- One row of the page-4 top-posts table (lines 409–417).  Reading
`title.length` of a missing (`undefined`) title throws a `TypeError`,
aborting the whole render; missing likes/comments merely stringify to
`"undefined"`. -/
def renderPostRow (post : PostSample) : Except String Item :=
  match post.title with
  | none => Except.error "TypeError: cannot read properties of undefined"
  | some title =>
    Except.ok (Item.tableRow (truncateTitle title) (jsString post.likes)
      (jsString post.comments))

/-- The `topPosts.forEach` loop of the page-4 table (lines 409–417): rows
are drawn in order, and the first missing title throws, aborting the
render. -/
def renderPostRows : List PostSample → Except String (List Item)
  | [] => Except.ok []
  | post :: rest => do
    let row ← renderPostRow post
    let rows ← renderPostRows rest
    pure (row :: rows)

/-- Page 4 (lines 395–417): the top-posts table. -/
def page4Items (topPosts : List PostSample) : Except String (List Item) := do
  let rows ← renderPostRows topPosts
  pure ([Item.heading "Top Posts",
    Item.text [TextPart.str "Title"],
    Item.text [TextPart.str "Likes"],
    Item.text [TextPart.str "Comments"]]
    ++ rows)

/-- The finished document: the initial page plus the three `addPage` calls,
each page a sequence of drawn items (every page additionally gets the fixed
gradient-and-card frame, identical on all pages and carrying no data). -/
structure ReportDoc where
  pages : List (List Item)
deriving DecidableEq, Repr

/-- The report facade (src/unnamed/part_000 lines 17–427): derives the
stats and emits the fixed four-page document; a rendering `TypeError`
(missing post title on the page-4 table) rejects the promise, so no
document is produced at all.  `logoLoaded` reports whether the excluded
logo asset load succeeded. -/
def generateReport (logoLoaded : Bool) (metrics : MetricsBundle)
    (options : ReportOptions) : Except String ReportDoc := do
  let s := deriveStats metrics
  let p4 ← page4Items metrics.topPosts
  pure { pages :=
    [page1Items logoLoaded metrics options s,
     page2Items metrics,
     page3Items s,
     p4] }

/-- Recognizes the items of the follower-growth chart block of page 1: its
heading and the chart itself (axes, labels and polyline). -/
def isGrowthChartSection : Item → Bool
  | Item.heading s => s = "Follower Growth"
  | Item.lineChart _ => true
  | _ => false

/-! ## Concrete inputs used by the claims -/

/-- The degenerate input: no history, no posts. -/
def emptyBundle : MetricsBundle := { followerHistory := [], topPosts := [] }

/-- The spec's forecast example: two samples one day apart, 100 → 200. -/
def forecastExample : MetricsBundle :=
  { followerHistory := [⟨"2024-01-01", 100⟩, ⟨"2024-01-02", 200⟩], topPosts := [] }

/-! ## Helper lemmas -/

theorem renderPostRows_ok_of_titles (posts : List PostSample)
    (h : ∀ p ∈ posts, p.title.isSome = true) :
    ∃ rows, renderPostRows posts = Except.ok rows := by
  induction posts with
  | nil => exact ⟨[], rfl⟩
  | cons post rest ih =>
    obtain ⟨t, ht⟩ := Option.isSome_iff_exists.mp (h post (List.mem_cons_self post rest))
    obtain ⟨rows, hrows⟩ := ih (fun p hp => h p (List.mem_cons_of_mem post hp))
    exact ⟨Item.tableRow (truncateTitle t) (jsString post.likes) (jsString post.comments)
        :: rows,
      by simp [renderPostRows, renderPostRow, ht, hrows, Bind.bind, Except.bind, pure,
        Except.pure]⟩

theorem renderPostRows_isOk_iff (posts : List PostSample) :
    ((renderPostRows posts).isOk = true) ↔ (∀ p ∈ posts, p.title.isSome = true) := by
  induction posts with
  | nil => simp [renderPostRows, Except.isOk, Except.toBool]
  | cons post rest ih =>
    cases ht : post.title with
    | none =>
      simp [renderPostRows, renderPostRow, ht, Bind.bind, Except.bind, Except.isOk,
        Except.toBool]
    | some t =>
      cases hr : renderPostRows rest with
      | error e =>
        rw [hr] at ih
        simp [Except.isOk, Except.toBool] at ih
        simp [renderPostRows, renderPostRow, ht, hr, Bind.bind, Except.bind, Except.isOk,
          Except.toBool, ih]
      | ok rows =>
        rw [hr] at ih
        simp [Except.isOk, Except.toBool] at ih
        simp only [renderPostRows, renderPostRow, ht, hr, Bind.bind, Except.bind,
          Except.isOk, Except.toBool, pure, Except.pure, List.forall_mem_cons,
          Option.isSome_some, true_and]
        exact (true_iff _).mpr ih

theorem page1_no_chart_of_short_history (logoLoaded : Bool) (metrics : MetricsBundle)
    (options : ReportOptions) (s : DerivedStats)
    (h : metrics.followerHistory.length < 2) :
    ∀ it ∈ page1Items logoLoaded metrics options s, isGrowthChartSection it = false := by
  intro it hit
  have hcond : ¬ (metrics.followerHistory.length > 1) := by omega
  cases logoLoaded <;>
    simp [page1Items, headerItems, hcond] at hit <;>
    rcases hit with rfl | rfl | rfl | rfl | rfl | rfl | rfl | rfl <;>
    rfl

theorem jsIndex_zero_of_head? (counts : List ℕ) (c : ℕ) (h : counts.head? = some c) :
    jsIndex counts 0 = JSNum.num c := by
  unfold jsIndex
  rw [List.get?_eq_getElem?, ← List.head?_eq_getElem?, h]

theorem jsIndex_last_of_getLast? (counts : List ℕ) (c : ℕ) (h : counts.getLast? = some c) :
    jsIndex counts (counts.length - 1) = JSNum.num c := by
  unfold jsIndex
  rw [List.get?_eq_getElem?, ← List.getLast?_eq_getElem?, h]

/-! ## Claim theorems -/

/-- **C1** (code_bug evaluation).  On an empty `followerHistory`, `growth`
(the spec's growthPercent) and `dailyGrowth` do fall back to `0`, but
`counts[0]` and `counts[-1]` are `undefined`, so `totalNewFollowers`,
`growthSlope`, `forecast30` and `forecast90` evaluate to `NaN` rather than
the zero fallback the spec (and the source's own comment, lines 44–46)
promise.  No exception is thrown, but the derived growth metrics are not
all zero. -/
theorem claim1_empty_history_growth_metrics :
    (deriveStats emptyBundle).growth = JSNum.num 0 ∧
    (deriveStats emptyBundle).dailyGrowth = JSNum.num 0 ∧
    (deriveStats emptyBundle).totalNewFollowers = JSNum.nan ∧
    (deriveStats emptyBundle).growthSlope = JSNum.nan ∧
    (deriveStats emptyBundle).forecast30 = JSNum.nan ∧
    (deriveStats emptyBundle).forecast90 = JSNum.nan := by
  refine ⟨?_, ?_, ?_, ?_, ?_, ?_⟩ <;>
    simp [emptyBundle, deriveStats, jsIndex, JSNum.sub, JSNum.add, JSNum.mul, JSNum.div,
      JSNum.round, JSNum.truthy, JSNum.toQ]

/-- **C3.**  For every `MetricsBundle` with empty `followerHistory` (and
posts that carry titles, as the data model requires), `generateReport`
succeeds, the document has exactly 4 pages, and page 1 contains no part of
the follower-growth chart section. -/
theorem claim3_empty_history_four_pages (logoLoaded : Bool) (metrics : MetricsBundle)
    (options : ReportOptions)
    (hEmpty : metrics.followerHistory.length = 0)
    (hTitles : ∀ p ∈ metrics.topPosts, p.title.isSome = true) :
    ∃ docu : ReportDoc,
      generateReport logoLoaded metrics options = Except.ok docu ∧
      docu.pages.length = 4 ∧
      ∀ it ∈ docu.pages.headD [], isGrowthChartSection it = false := by
  obtain ⟨rows, hrows⟩ := renderPostRows_ok_of_titles metrics.topPosts hTitles
  refine ⟨⟨[page1Items logoLoaded metrics options (deriveStats metrics),
      page2Items metrics, page3Items (deriveStats metrics),
      [Item.heading "Top Posts", Item.text [TextPart.str "Title"],
        Item.text [TextPart.str "Likes"], Item.text [TextPart.str "Comments"]] ++ rows]⟩,
    ?_, rfl, ?_⟩
  · simp [generateReport, page4Items, hrows, Bind.bind, Except.bind, pure, Except.pure]
  · simpa using
      page1_no_chart_of_short_history logoLoaded metrics options (deriveStats metrics)
        (by omega)

/-- The bundle witnessing C3: empty history, one titled post. -/
def bundleC3 : MetricsBundle :=
  { followerHistory := [], topPosts := [⟨some "Launch day recap", some 10, some 2⟩] }

theorem claim3_witness :
    bundleC3.followerHistory.length = 0 ∧
    (∀ p ∈ bundleC3.topPosts, p.title.isSome = true) ∧
    ∃ docu : ReportDoc,
      generateReport true bundleC3 {} = Except.ok docu ∧
      docu.pages.length = 4 ∧
      ∀ it ∈ docu.pages.headD [], isGrowthChartSection it = false :=
  ⟨rfl, by decide, claim3_empty_history_four_pages true bundleC3 {} rfl (by decide)⟩

/-- **C2** (counterexample).  For `followerHistory = [{count:100},
{count:200}]` the code computes `forecast30 = round(endCount + slope*30) =
round(200 + 3000) = 3200` and `forecast90 = 9200`, not the 3100 / 9100 the
claim asserts (those would follow from `startCount`, contradicting the
claim's own formula). -/
theorem claim2_counterexample :
    (deriveStats forecastExample).forecast30 = JSNum.num 3200 ∧
    (deriveStats forecastExample).forecast30 ≠ JSNum.num 3100 ∧
    (deriveStats forecastExample).forecast90 = JSNum.num 9200 ∧
    (deriveStats forecastExample).forecast90 ≠ JSNum.num 9100 := by
  have h30 : (deriveStats forecastExample).forecast30 = JSNum.num 3200 := by
    simp [forecastExample, deriveStats, jsIndex, JSNum.sub, JSNum.add, JSNum.mul,
      JSNum.div, JSNum.round, JSNum.toQ]
    norm_num
  have h90 : (deriveStats forecastExample).forecast90 = JSNum.num 9200 := by
    simp [forecastExample, deriveStats, jsIndex, JSNum.sub, JSNum.add, JSNum.mul,
      JSNum.div, JSNum.round, JSNum.toQ]
    norm_num
  refine ⟨h30, ?_, h90, ?_⟩ <;> simp [h30, h90]

/-- **C2** (amended).  `numDays = max(1, samples-1)` and
`forecastN = round(endCount + growthSlope * N)` hold in general, and on the
example history `[{count:100}, {count:200}]` the code yields
`growthSlope = 100`, `forecast30 = 3200` and `forecast90 = 9200`. -/
theorem claim2_forecast_example :
    (∀ metrics : MetricsBundle,
      (deriveStats metrics).numDays = max 1 (metrics.followerHistory.length - 1)) ∧
    (∀ metrics : MetricsBundle,
      (deriveStats metrics).forecast30 =
        JSNum.round ((deriveStats metrics).endCount
          + (deriveStats metrics).growthSlope * JSNum.num 30) ∧
      (deriveStats metrics).forecast90 =
        JSNum.round ((deriveStats metrics).endCount
          + (deriveStats metrics).growthSlope * JSNum.num 90)) ∧
    (deriveStats forecastExample).growthSlope = JSNum.num 100 ∧
    (deriveStats forecastExample).forecast30 = JSNum.num 3200 ∧
    (deriveStats forecastExample).forecast90 = JSNum.num 9200 := by
  refine ⟨?_, ?_, ?_, ?_, ?_⟩
  · intro metrics
    simp only [deriveStats, List.length_map]
    split <;> omega
  · intro metrics
    constructor <;> simp [deriveStats]
  · simp [forecastExample, deriveStats, jsIndex, JSNum.sub, JSNum.div, JSNum.toQ]
    norm_num
  · simp [forecastExample, deriveStats, jsIndex, JSNum.sub, JSNum.add, JSNum.mul,
      JSNum.div, JSNum.round, JSNum.toQ]
    norm_num
  · simp [forecastExample, deriveStats, jsIndex, JSNum.sub, JSNum.add, JSNum.mul,
      JSNum.div, JSNum.round, JSNum.toQ]
    norm_num

/-- The C4 counterexample bundle: a flat history starting at 5 followers. -/
def bundleC4 : MetricsBundle :=
  { followerHistory := [⟨"2024-01-01", 5⟩, ⟨"2024-01-02", 5⟩], topPosts := [] }

/-- **C4** (counterexample).  `growth` is also `0` when
`endCount == startCount ≠ 0`: on the flat history 5 → 5 the code gives
`growth = 0` although `startCount = 5 ≠ 0`, so "growthPercent equals 0
exactly when startCount == 0" fails. -/
theorem claim4_counterexample :
    (deriveStats bundleC4).growth = JSNum.num 0 ∧
    (deriveStats bundleC4).startCount ≠ JSNum.num 0 := by
  constructor
  · simp [bundleC4, deriveStats, jsIndex, JSNum.truthy, JSNum.sub, JSNum.div, JSNum.mul,
      JSNum.toQ]
  · simp [bundleC4, deriveStats, jsIndex]

/-- **C4** (amended).  For a nonempty history with first count `c0` and
last count `cEnd`, `growth = 0` iff `c0 = 0` or `cEnd = c0`; when
`c0 ≠ 0`, `growth = (cEnd - c0) / c0 * 100`. -/
theorem claim4_growth_zero_iff (metrics : MetricsBundle) (c0 cEnd : ℕ)
    (h0 : (metrics.followerHistory.map (fun item => item.count)).head? = some c0)
    (hEnd : (metrics.followerHistory.map (fun item => item.count)).getLast? = some cEnd) :
    ((deriveStats metrics).growth = JSNum.num 0 ↔ (c0 = 0 ∨ cEnd = c0)) ∧
    (c0 ≠ 0 →
      (deriveStats metrics).growth =
        JSNum.num ((((cEnd : ℚ) - (c0 : ℚ)) / (c0 : ℚ)) * 100)) := by
  have hs := jsIndex_zero_of_head? _ _ h0
  have he := jsIndex_last_of_getLast? _ _ hEnd
  rw [List.length_map] at he
  by_cases hc0 : c0 = 0
  · subst hc0
    constructor
    · simp [deriveStats, hs, he, JSNum.truthy]
    · intro h
      exact absurd rfl h
  · have hq0 : ((c0 : ℚ)) ≠ 0 := Nat.cast_ne_zero.mpr hc0
    have hgrowth : (deriveStats metrics).growth =
        JSNum.num ((((cEnd : ℚ) - (c0 : ℚ)) / (c0 : ℚ)) * 100) := by
      simp [deriveStats, hs, he, JSNum.truthy, JSNum.sub, JSNum.div, JSNum.mul, JSNum.toQ,
        hq0]
    refine ⟨?_, fun _ => hgrowth⟩
    rw [hgrowth]
    simp only [JSNum.num.injEq, hc0, false_or]
    rw [mul_eq_zero, div_eq_zero_iff, sub_eq_zero]
    constructor
    · rintro ((h | h) | h)
      · exact Nat.cast_injective h
      · exact absurd h hq0
      · norm_num at h
    · intro h
      exact Or.inl (Or.inl (by exact_mod_cast h))

/-- The C4 witness bundle: history 3 → 7. -/
def bundleC4w : MetricsBundle :=
  { followerHistory := [⟨"2024-01-01", 3⟩, ⟨"2024-01-02", 7⟩], topPosts := [] }

theorem claim4_growth_zero_iff_witness :
    (((deriveStats bundleC4w).growth = JSNum.num 0) ↔ ((3 : ℕ) = 0 ∨ (7 : ℕ) = 3)) ∧
    ((3 : ℕ) ≠ 0 → (deriveStats bundleC4w).growth =
      JSNum.num ((((7 : ℕ) : ℚ) - ((3 : ℕ) : ℚ)) / ((3 : ℕ) : ℚ) * 100)) :=
  claim4_growth_zero_iff bundleC4w 3 7 (by rfl) (by rfl)

/-- The C5 counterexample bundle: 10 followers, one post with zero likes
and zero comments. -/
def bundleC5 : MetricsBundle :=
  { followerHistory := [⟨"2024-01-01", 10⟩],
    topPosts := [⟨some "Quiet day", some 0, some 0⟩] }

/-- **C5** (counterexample).  `engagementRate` is also `0` when the posts
have zero total likes and comments, although `endCount = 10 ≠ 0` and
`topPosts` is nonempty, so "engagementRate equals 0 exactly when
endCount == 0 or topPosts is empty" fails. -/
theorem claim5_counterexample :
    (deriveStats bundleC5).engagementRate = JSNum.num 0 ∧
    (deriveStats bundleC5).endCount ≠ JSNum.num 0 ∧
    bundleC5.topPosts ≠ [] := by
  refine ⟨?_, ?_, by simp [bundleC5]⟩
  · simp [bundleC5, deriveStats, jsIndex, totalLikesQ, totalCommentsQ, JSNum.gt, JSNum.lt,
      JSNum.add, JSNum.mul, JSNum.div, JSNum.toQ]
  · simp [bundleC5, deriveStats, jsIndex]

/-- **C5** (amended).  For a nonempty history with last count `cEnd`,
`engagementRate = 0` iff `cEnd = 0`, or `topPosts` is empty, or the posts
have zero total likes + comments; when `cEnd ≠ 0` and posts exist,
`engagementRate = (totalLikes + totalComments) / (postCount * cEnd) * 100`. -/
theorem claim5_engagement_zero_iff (metrics : MetricsBundle) (cEnd : ℕ)
    (hEnd : (metrics.followerHistory.map (fun item => item.count)).getLast? = some cEnd) :
    ((deriveStats metrics).engagementRate = JSNum.num 0 ↔
      (cEnd = 0 ∨ metrics.topPosts = [] ∨
        totalLikesQ metrics.topPosts + totalCommentsQ metrics.topPosts = 0)) ∧
    (cEnd ≠ 0 → metrics.topPosts ≠ [] →
      (deriveStats metrics).engagementRate =
        JSNum.num (((totalLikesQ metrics.topPosts + totalCommentsQ metrics.topPosts) /
          ((metrics.topPosts.length : ℚ) * (cEnd : ℚ))) * 100)) := by
  have he := jsIndex_last_of_getLast? _ _ hEnd
  rw [List.length_map] at he
  by_cases hc : cEnd = 0
  · subst hc
    constructor
    · simp [deriveStats, he, JSNum.gt, JSNum.lt, JSNum.toQ]
    · intro h
      exact absurd rfl h
  by_cases hp : metrics.topPosts = []
  · constructor
    · simp [deriveStats, he, hp]
    · intro _ h
      exact absurd hp h
  · have hlen : metrics.topPosts.length ≠ 0 := fun h => hp (List.length_eq_zero.mp h)
    have hgtt : JSNum.gt (JSNum.num (cEnd : ℚ)) (JSNum.num 0) = true := by
      simp [JSNum.gt, JSNum.lt, JSNum.toQ]
      exact_mod_cast Nat.pos_of_ne_zero hc
    have hden : ((metrics.topPosts.length : ℚ)) * ((cEnd : ℚ)) ≠ 0 :=
      mul_ne_zero (Nat.cast_ne_zero.mpr hlen) (Nat.cast_ne_zero.mpr hc)
    have hrate : (deriveStats metrics).engagementRate =
        JSNum.num (((totalLikesQ metrics.topPosts + totalCommentsQ metrics.topPosts) /
          ((metrics.topPosts.length : ℚ) * (cEnd : ℚ))) * 100) := by
      simp [deriveStats, he, hgtt, Nat.pos_of_ne_zero hlen, JSNum.add, JSNum.mul,
        JSNum.div, JSNum.toQ, hden]
    refine ⟨?_, fun _ _ => hrate⟩
    rw [hrate]
    simp only [JSNum.num.injEq, hc, hp, false_or]
    rw [mul_eq_zero, div_eq_zero_iff]
    constructor
    · rintro ((h | h) | h)
      · exact h
      · exact absurd h hden
      · norm_num at h
    · intro h
      exact Or.inl (Or.inl h)

/-- The C5 witness bundle: 10 followers, one post with 5 likes and
1 comment. -/
def bundleC5w : MetricsBundle :=
  { followerHistory := [⟨"2024-01-01", 10⟩],
    topPosts := [⟨some "Busy day", some 5, some 1⟩] }

theorem claim5_engagement_zero_iff_witness :
    (((deriveStats bundleC5w).engagementRate = JSNum.num 0) ↔
      ((10 : ℕ) = 0 ∨ bundleC5w.topPosts = [] ∨
        totalLikesQ bundleC5w.topPosts + totalCommentsQ bundleC5w.topPosts = 0)) ∧
    ((10 : ℕ) ≠ 0 → bundleC5w.topPosts ≠ [] →
      (deriveStats bundleC5w).engagementRate =
        JSNum.num (((totalLikesQ bundleC5w.topPosts + totalCommentsQ bundleC5w.topPosts) /
          ((bundleC5w.topPosts.length : ℚ) * ((10 : ℕ) : ℚ))) * 100)) :=
  claim5_engagement_zero_iff bundleC5w 10 (by rfl)

/-- **C6.**  For N ≥ 2 samples the line-chart point for index `i` and value
`c` is `x = boxX + i * (width / (N-1))` and
`y = boxY + height - ((c - min) / (max - min, or 1 if max = min)) * height`;
and with fewer than 2 samples page 1 contains no part of the chart block
(neither its heading nor the chart itself). -/
theorem claim6_line_chart_geometry (boxX boxY width height : ℚ) (counts : List ℕ)
    (hN : 2 ≤ counts.length) :
    (∀ (i c : ℕ), counts[i]? = some c →
      (lineChartPoints boxX boxY width height counts)[i]? =
        some (boxX + (i : ℚ) * (width / ((counts.length : ℚ) - 1)),
          boxY + height -
            (((c : ℚ) - (jsMin counts : ℚ)) /
              (if jsMax counts = jsMin counts then (1 : ℚ)
               else (jsMax counts : ℚ) - (jsMin counts : ℚ))) * height)) ∧
    (∀ (logoLoaded : Bool) (metrics : MetricsBundle) (options : ReportOptions)
        (s : DerivedStats),
      metrics.followerHistory.length < 2 →
      ∀ it ∈ page1Items logoLoaded metrics options s, isGrowthChartSection it = false) := by
  constructor
  · intro i c hic
    have h1 : ((counts.length - 1 : ℕ) : ℚ) = (counts.length : ℚ) - 1 :=
      Nat.cast_sub (by omega)
    have h2 : (if ((jsMax counts : ℚ) - (jsMin counts : ℚ)) = 0 then (1 : ℚ)
          else (jsMax counts : ℚ) - (jsMin counts : ℚ)) =
        (if jsMax counts = jsMin counts then (1 : ℚ)
          else (jsMax counts : ℚ) - (jsMin counts : ℚ)) :=
      if_congr (by rw [sub_eq_zero, Nat.cast_inj]) rfl rfl
    simp only [lineChartPoints, List.getElem?_map, List.getElem?_enum, hic,
      Option.map_some']
    rw [Option.some.injEq, Prod.mk.injEq]
    constructor
    · rw [h1]
      ring
    · rw [h2]
  · intro logoLoaded metrics options s hshort
    exact page1_no_chart_of_short_history logoLoaded metrics options s hshort

/-- The C6 witness samples. -/
def countsC6 : List ℕ := [100, 200]

theorem claim6_witness :
    (2 ≤ countsC6.length) ∧
    ((lineChartPoints 0 0 450 220 countsC6)[1]? =
      some ((0 : ℚ) + ((1 : ℕ) : ℚ) * (450 / ((countsC6.length : ℚ) - 1)),
        (0 : ℚ) + 220 -
          ((((200 : ℕ) : ℚ) - (jsMin countsC6 : ℚ)) /
            (if jsMax countsC6 = jsMin countsC6 then (1 : ℚ)
             else (jsMax countsC6 : ℚ) - (jsMin countsC6 : ℚ))) * 220)) :=
  ⟨by decide,
    (claim6_line_chart_geometry 0 0 450 220 countsC6 (by decide)).1 1 200 (by decide)⟩

/-- **C7.**  Exactly one of the three growth-cadence messages appears in
the recommendations, selected by `growthSlope <= 0` (JS comparison, false
on NaN), else `dailyGrowth < 5`, else the strong message. -/
theorem claim7_growth_cadence (growthSlope dailyGrowth engagementRate
    commentLikeRatio : JSNum) :
    (flatGrowthMsg ∈ recommendations growthSlope dailyGrowth engagementRate
        commentLikeRatio ↔ JSNum.le growthSlope (JSNum.num 0) = true) ∧
    (modestGrowthMsg ∈ recommendations growthSlope dailyGrowth engagementRate
        commentLikeRatio ↔
      (JSNum.le growthSlope (JSNum.num 0) = false ∧
        JSNum.lt dailyGrowth (JSNum.num 5) = true)) ∧
    (strongGrowthMsg ∈ recommendations growthSlope dailyGrowth engagementRate
        commentLikeRatio ↔
      (JSNum.le growthSlope (JSNum.num 0) = false ∧
        JSNum.lt dailyGrowth (JSNum.num 5) = false)) ∧
    ((recommendations growthSlope dailyGrowth engagementRate
        commentLikeRatio).count flatGrowthMsg
      + (recommendations growthSlope dailyGrowth engagementRate
          commentLikeRatio).count modestGrowthMsg
      + (recommendations growthSlope dailyGrowth engagementRate
          commentLikeRatio).count strongGrowthMsg = 1) := by
  cases h1 : JSNum.le growthSlope (JSNum.num 0) <;>
  cases h2 : JSNum.lt dailyGrowth (JSNum.num 5) <;>
  cases h3 : JSNum.lt engagementRate (JSNum.num 1) <;>
  cases h4 : JSNum.gt engagementRate (JSNum.num 5) <;>
  cases h5 : JSNum.lt commentLikeRatio (JSNum.num 10) <;>
    simp [recommendations, h1, h2, h3, h4, h5, flatGrowthMsg, modestGrowthMsg,
      strongGrowthMsg, lowEngagementMsg, highEngagementMsg, lowRatioMsg, goodRatioMsg,
      closingMsg, List.count_append, List.count_cons, List.count_nil]

/-- **C8.**  The engagement advice appears iff `engagementRate < 1` (low
message) or `engagementRate > 5` (high message); in particular it fires low
at 0.5, high at 6, and not at all at 3, for every value of the other
stats. -/
theorem claim8_engagement_advice (growthSlope dailyGrowth engagementRate
    commentLikeRatio : JSNum) :
    (lowEngagementMsg ∈ recommendations growthSlope dailyGrowth engagementRate
        commentLikeRatio ↔ JSNum.lt engagementRate (JSNum.num 1) = true) ∧
    (highEngagementMsg ∈ recommendations growthSlope dailyGrowth engagementRate
        commentLikeRatio ↔ JSNum.gt engagementRate (JSNum.num 5) = true) ∧
    (lowEngagementMsg ∈ recommendations growthSlope dailyGrowth (JSNum.num (1/2))
        commentLikeRatio) ∧
    (highEngagementMsg ∈ recommendations growthSlope dailyGrowth (JSNum.num 6)
        commentLikeRatio) ∧
    (lowEngagementMsg ∉ recommendations growthSlope dailyGrowth (JSNum.num 3)
        commentLikeRatio) ∧
    (highEngagementMsg ∉ recommendations growthSlope dailyGrowth (JSNum.num 3)
        commentLikeRatio) := by
  have hcontra : ¬ (JSNum.lt engagementRate (JSNum.num 1) = true ∧
      JSNum.gt engagementRate (JSNum.num 5) = true) := by
    rintro ⟨ha, hb⟩
    cases engagementRate <;> simp [JSNum.lt, JSNum.gt, JSNum.toQ] at ha hb
    linarith
  refine ⟨?_, ?_, ?_, ?_, ?_, ?_⟩
  · cases h3 : JSNum.lt engagementRate (JSNum.num 1) <;>
    cases h4 : JSNum.gt engagementRate (JSNum.num 5) <;>
    cases h1 : JSNum.le growthSlope (JSNum.num 0) <;>
    cases h2 : JSNum.lt dailyGrowth (JSNum.num 5) <;>
    cases h5 : JSNum.lt commentLikeRatio (JSNum.num 10) <;>
      simp [recommendations, h1, h2, h3, h4, h5, flatGrowthMsg, modestGrowthMsg,
        strongGrowthMsg, lowEngagementMsg, highEngagementMsg, lowRatioMsg, goodRatioMsg,
        closingMsg]
  · cases h3 : JSNum.lt engagementRate (JSNum.num 1)
    · cases h4 : JSNum.gt engagementRate (JSNum.num 5) <;>
      cases h1 : JSNum.le growthSlope (JSNum.num 0) <;>
      cases h2 : JSNum.lt dailyGrowth (JSNum.num 5) <;>
      cases h5 : JSNum.lt commentLikeRatio (JSNum.num 10) <;>
        simp [recommendations, h1, h2, h3, h4, h5, flatGrowthMsg, modestGrowthMsg,
          strongGrowthMsg, lowEngagementMsg, highEngagementMsg, lowRatioMsg,
          goodRatioMsg, closingMsg]
    · have h4 : JSNum.gt engagementRate (JSNum.num 5) = false := by
        cases h4 : JSNum.gt engagementRate (JSNum.num 5)
        · rfl
        · exact absurd ⟨h3, h4⟩ hcontra
      cases h1 : JSNum.le growthSlope (JSNum.num 0) <;>
      cases h2 : JSNum.lt dailyGrowth (JSNum.num 5) <;>
      cases h5 : JSNum.lt commentLikeRatio (JSNum.num 10) <;>
        simp [recommendations, h1, h2, h3, h4, h5, flatGrowthMsg, modestGrowthMsg,
          strongGrowthMsg, lowEngagementMsg, highEngagementMsg, lowRatioMsg,
          goodRatioMsg, closingMsg]
  · have e1 : JSNum.lt (JSNum.num (1/2)) (JSNum.num 1) = true := by
      norm_num [JSNum.lt, JSNum.toQ]
    simp only [recommendations, e1]
    simp
  · have e2 : JSNum.lt (JSNum.num 6) (JSNum.num 1) = false := by
      norm_num [JSNum.lt, JSNum.toQ]
    have e3 : JSNum.gt (JSNum.num 6) (JSNum.num 5) = true := by
      norm_num [JSNum.gt, JSNum.lt, JSNum.toQ]
    simp only [recommendations, e2, e3]
    simp
  · have e4 : JSNum.lt (JSNum.num 3) (JSNum.num 1) = false := by
      norm_num [JSNum.lt, JSNum.toQ]
    have e5 : JSNum.gt (JSNum.num 3) (JSNum.num 5) = false := by
      norm_num [JSNum.gt, JSNum.lt, JSNum.toQ]
    simp only [recommendations, e4, e5]
    cases h1 : JSNum.le growthSlope (JSNum.num 0) <;>
    cases h2 : JSNum.lt dailyGrowth (JSNum.num 5) <;>
    cases h5 : JSNum.lt commentLikeRatio (JSNum.num 10) <;>
      simp [h1, h2, h5, flatGrowthMsg, modestGrowthMsg, strongGrowthMsg,
        lowEngagementMsg, highEngagementMsg, lowRatioMsg, goodRatioMsg, closingMsg]
  · have e4 : JSNum.lt (JSNum.num 3) (JSNum.num 1) = false := by
      norm_num [JSNum.lt, JSNum.toQ]
    have e5 : JSNum.gt (JSNum.num 3) (JSNum.num 5) = false := by
      norm_num [JSNum.gt, JSNum.lt, JSNum.toQ]
    simp only [recommendations, e4, e5]
    cases h1 : JSNum.le growthSlope (JSNum.num 0) <;>
    cases h2 : JSNum.lt dailyGrowth (JSNum.num 5) <;>
    cases h5 : JSNum.lt commentLikeRatio (JSNum.num 10) <;>
      simp [h1, h2, h5, flatGrowthMsg, modestGrowthMsg, strongGrowthMsg,
        lowEngagementMsg, highEngagementMsg, lowRatioMsg, goodRatioMsg, closingMsg]

/-- **C9.**  On the page-4 table, a title longer than 50 characters renders
as its first 47 characters plus one ellipsis character (48 characters
total); shorter titles render unchanged. -/
theorem claim9_title_truncation (title : String) :
    (∀ (likes comments : Option ℕ),
      renderPostRow ⟨some title, likes, comments⟩ =
        Except.ok (Item.tableRow (truncateTitle title) (jsString likes)
          (jsString comments))) ∧
    (50 < title.length →
      truncateTitle title = String.mk (title.data.take 47) ++ "…" ∧
      (truncateTitle title).length = 48) ∧
    (title.length ≤ 50 → truncateTitle title = title) := by
  refine ⟨fun likes comments => rfl, ?_, ?_⟩
  · intro h
    have hgt : title.length > 50 := h
    have hlen : title.data.length = title.length := rfl
    have h47 : (String.mk (title.data.take 47)).length = 47 := by
      show (title.data.take 47).length = 47
      rw [List.length_take]
      omega
    constructor
    · simp [truncateTitle, hgt]
    · rw [truncateTitle, if_pos hgt, String.length_append, h47]
      decide
  · intro h
    rw [truncateTitle, if_neg (by omega)]

/-- The C9 witness title: 60 characters. -/
def titleC9 : String := "012345678901234567890123456789012345678901234567890123456789"

theorem claim9_witness :
    (50 < titleC9.length ∧
      truncateTitle titleC9 = String.mk (titleC9.data.take 47) ++ "…" ∧
      (truncateTitle titleC9).length = 48) ∧
    (("Short title" : String).length ≤ 50 ∧
      truncateTitle "Short title" = "Short title") :=
  ⟨⟨by decide, (claim9_title_truncation titleC9).2.1 (by decide)⟩,
    by decide, (claim9_title_truncation "Short title").2.2 (by decide)⟩

/-- Replaces each post's missing likes/comments fields by an explicit 0. -/
def fillZero (post : PostSample) : PostSample :=
  { title := post.title
    likes := some (post.likes.getD 0)
    comments := some (post.comments.getD 0) }

/-- **C10.**  Missing likes/comments fields read as 0 everywhere: replacing
them by explicit zeros changes neither the derived stats nor the bar
chart; and the render succeeds exactly when every post has a title (a
missing title is the one rendering failure, on the page-4 table). -/
theorem claim10_missing_engagement_fields (logoLoaded : Bool) (metrics : MetricsBundle)
    (options : ReportOptions) :
    (deriveStats { metrics with topPosts := metrics.topPosts.map fillZero } =
      deriveStats metrics) ∧
    (buildBarChart (metrics.topPosts.map fillZero) = buildBarChart metrics.topPosts) ∧
    ((generateReport logoLoaded metrics options).isOk = true ↔
      ∀ p ∈ metrics.topPosts, p.title.isSome = true) := by
  have hg1 : ((fun p => ((p.likes.getD 0 : ℕ) : ℚ)) ∘ fillZero)
      = (fun p : PostSample => ((p.likes.getD 0 : ℕ) : ℚ)) := by
    funext p
    simp [fillZero]
  have hg2 : ((fun p => ((p.comments.getD 0 : ℕ) : ℚ)) ∘ fillZero)
      = (fun p : PostSample => ((p.comments.getD 0 : ℕ) : ℚ)) := by
    funext p
    simp [fillZero]
  have hf1 : ((fun p => p.likes.getD 0) ∘ fillZero)
      = (fun p : PostSample => p.likes.getD 0) := by
    funext p
    simp [fillZero]
  have hf2 : ((fun p => p.comments.getD 0) ∘ fillZero)
      = (fun p : PostSample => p.comments.getD 0) := by
    funext p
    simp [fillZero]
  refine ⟨?_, ?_, ?_⟩
  · have hL : totalLikesQ (metrics.topPosts.map fillZero) = totalLikesQ metrics.topPosts := by
      simp [totalLikesQ, List.map_map, hg1]
    have hC : totalCommentsQ (metrics.topPosts.map fillZero)
        = totalCommentsQ metrics.topPosts := by
      simp [totalCommentsQ, List.map_map, hg2]
    simp [deriveStats, hL, hC]
  · simp [buildBarChart, List.enum_map, List.map_map, hf1, hf2, Function.comp, fillZero,
      Prod.map]
  · have hgen : (generateReport logoLoaded metrics options).isOk =
        (renderPostRows metrics.topPosts).isOk := by
      cases hr : renderPostRows metrics.topPosts <;>
        simp [generateReport, page4Items, hr, Bind.bind, Except.bind, pure, Except.pure,
          Except.isOk, Except.toBool]
    rw [hgen, renderPostRows_isOk_iff]
